import Mathlib

/-!
Verification of `rpcore/pipeline_extensions.py` (RenderPipeline).

The file shallowly embeds the `PipelineExtensions` class: `set_effect` is
modelled as the list of operations it performs on the external Tag/Mask
Manager and the nodepath, `_init_common_stages` as the list of stages it
registers, and `prepare_scene` as a pure function from a scene (a list of
nodes) to the registered lights/probes plus the residual scene.

Python floats are modelled as exact rationals; `math.pi` is modelled as the
exact rational value of the IEEE-754 double `math.pi`.
-/

namespace RenderPipeline

/-- The four conditional render passes handled by `set_effect`. -/
inductive PassId
  | gbuffer
  | shadows
  | voxelize
  | envmap
  deriving DecidableEq, Repr

/-- Modelled from the spec: the resolved effect object produced by the external
Effect Resolver (`rpcore.effect.Effect`, not under `src/`). Per §4.1 it exposes
a per-pass boolean enable flag, a shader handle per pass, and an effect
identity. Shader handles are opaque and modelled as naturals. -/
structure Effect where
  effect_id : Nat
  render_gbuffer : Bool
  render_shadows : Bool
  render_voxel : Bool
  render_envmap : Bool
  shader_gbuffer : Nat
  shader_shadows : Nat
  shader_voxelize : Nat
  shader_envmap : Nat
  deriving DecidableEq, Repr

/-- `effect.get_option(name)` for the four pass-enabling options queried by
`set_effect` (source lines 120, 127, 136, 145). -/
def Effect.get_option (e : Effect) : String → Bool
  | "render_gbuffer" => e.render_gbuffer
  | "render_shadows" => e.render_shadows
  | "render_voxel" => e.render_voxel
  | "render_envmap" => e.render_envmap
  | _ => false

/-- `effect.get_shader_obj(name)` for the four passes (source lines 123, 130,
139, 148). -/
def Effect.get_shader_obj (e : Effect) : String → Nat
  | "gbuffer" => e.shader_gbuffer
  | "shadows" => e.shader_shadows
  | "voxelize" => e.shader_voxelize
  | "envmap" => e.shader_envmap
  | _ => 0

/-- One observable operation performed by `set_effect` on the nodepath or the
Tag/Mask Manager. `hideMask p` is `nodepath.hide(mask of p)`, `showMask p` is
`nodepath.show(mask of p)`, `setShader` is the gbuffer
`nodepath.set_shader(shader, sort)`, and the three `apply*State` constructors
are the Tag/Mask Manager state applications for shadows / voxelize / envmap. -/
inductive Op
  | errorMsg (msg : String)
  | hideMask (p : PassId)
  | showMask (p : PassId)
  | setShader (shader : Nat) (sort : Int)
  | applyShadowState (shader : Nat) (effect_id : String) (sort : Int)
  | applyVoxelizeState (shader : Nat) (effect_id : String) (sort : Int)
  | applyEnvmapState (shader : Nat) (effect_id : String) (sort : Int)
  deriving DecidableEq, Repr

/-- The default value of the `sort` parameter of `set_effect`
(source line 107: `def set_effect(self, nodepath, effect_src, options=None, sort=30)`). -/
def set_effect_default_sort : Int := 30

/-- `PipelineExtensions.set_effect` (source lines 107-151), as the sequence of
operations it performs. The external `Effect.load(effect_src, options)` is
abstracted by the `effect_load_result` argument: `none` models a failed load,
`some e` a successful resolution to `e`. -/
def set_effect (effect_load_result : Option Effect)
    (sort : Int := set_effect_default_sort) : List Op :=
  match effect_load_result with
  | none => [Op.errorMsg "Could not apply effect"]
  | some effect =>
    (if !(effect.get_option "render_gbuffer") then
      [Op.hideMask PassId.gbuffer]
    else
      [Op.setShader (effect.get_shader_obj "gbuffer") sort,
       Op.showMask PassId.gbuffer])
    ++
    (if !(effect.get_option "render_shadows") then
      [Op.hideMask PassId.shadows]
    else
      [Op.applyShadowState (effect.get_shader_obj "shadows")
         (toString effect.effect_id) (25 + sort),
       Op.showMask PassId.shadows])
    ++
    (if !(effect.get_option "render_voxel") then
      [Op.hideMask PassId.voxelize]
    else
      [Op.applyVoxelizeState (effect.get_shader_obj "voxelize")
         (toString effect.effect_id) (35 + sort),
       Op.showMask PassId.voxelize])
    ++
    (if !(effect.get_option "render_envmap") then
      [Op.hideMask PassId.envmap]
    else
      [Op.applyEnvmapState (effect.get_shader_obj "envmap")
         (toString effect.effect_id) (45 + sort),
       Op.showMask PassId.envmap])

/-- The option name controlling each pass, as queried by `set_effect`. -/
def pass_option_name : PassId → String
  | PassId.gbuffer => "render_gbuffer"
  | PassId.shadows => "render_shadows"
  | PassId.voxelize => "render_voxel"
  | PassId.envmap => "render_envmap"

/-- Whether an operation binds a shader for pass `p` (the gbuffer
`set_shader` or one of the three `apply_*_state` calls). -/
def Op.bindsFor (p : PassId) : Op → Bool
  | Op.setShader _ _ => p == PassId.gbuffer
  | Op.applyShadowState _ _ _ => p == PassId.shadows
  | Op.applyVoxelizeState _ _ _ => p == PassId.voxelize
  | Op.applyEnvmapState _ _ _ => p == PassId.envmap
  | _ => false

/-- Whether a trace of operations invokes any shader binding for pass `p`. -/
def bindsPass (ops : List Op) (p : PassId) : Bool :=
  ops.any (Op.bindsFor p)

/-- The visibility state of pass `p` after the trace: `some true` when the
last hide/show operation on the mask of `p` was a hide, `some false` when it
was a show, `none` when the mask of `p` was never touched. -/
def visStateAfter (ops : List Op) (p : PassId) : Option Bool :=
  ops.foldl
    (fun acc op =>
      match op with
      | Op.hideMask q => if q == p then some true else acc
      | Op.showMask q => if q == p then some false else acc
      | _ => acc)
    none

/-- Pass `p` is marked hidden after the trace. -/
def hiddenAfter (ops : List Op) (p : PassId) : Bool :=
  visStateAfter ops p == some true

/-- C1: when the resolved effect enables a pass, `set_effect` binds that
pass's shader at priority `sort` for gbuffer, `25 + sort` for shadows,
`35 + sort` for voxelize and `45 + sort` for envmap; in particular with
`render_shadows = true` and `sort = 30` the shadow shader is bound at 55. -/
theorem set_effect_binds_at_pass_offsets (e : Effect) (sort : Int) :
    (e.render_gbuffer = true →
      Op.setShader (e.get_shader_obj "gbuffer") sort ∈ set_effect (some e) sort) ∧
    (e.render_shadows = true →
      Op.applyShadowState (e.get_shader_obj "shadows") (toString e.effect_id)
        (25 + sort) ∈ set_effect (some e) sort) ∧
    (e.render_voxel = true →
      Op.applyVoxelizeState (e.get_shader_obj "voxelize") (toString e.effect_id)
        (35 + sort) ∈ set_effect (some e) sort) ∧
    (e.render_envmap = true →
      Op.applyEnvmapState (e.get_shader_obj "envmap") (toString e.effect_id)
        (45 + sort) ∈ set_effect (some e) sort) ∧
    (e.render_shadows = true →
      Op.applyShadowState (e.get_shader_obj "shadows") (toString e.effect_id)
        55 ∈ set_effect (some e) 30) := by
  refine ⟨?_, ?_, ?_, ?_, ?_⟩ <;> intro h <;>
    simp [set_effect, Effect.get_option, h]

/-- Witness for C1 at a concrete effect enabling all four passes, `sort = 30`. -/
theorem set_effect_binds_at_pass_offsets_witness :
    Op.setShader 1 30 ∈
      set_effect (some ⟨7, true, true, true, true, 1, 2, 3, 4⟩) 30 ∧
    Op.applyShadowState 2 "7" 55 ∈
      set_effect (some ⟨7, true, true, true, true, 1, 2, 3, 4⟩) 30 ∧
    Op.applyVoxelizeState 3 "7" 65 ∈
      set_effect (some ⟨7, true, true, true, true, 1, 2, 3, 4⟩) 30 ∧
    Op.applyEnvmapState 4 "7" 75 ∈
      set_effect (some ⟨7, true, true, true, true, 1, 2, 3, 4⟩) 30 := by
  have h := set_effect_binds_at_pass_offsets ⟨7, true, true, true, true, 1, 2, 3, 4⟩ 30
  refine ⟨h.1 rfl, ?_, ?_, h.2.2.2.1 rfl⟩
  · have hs := h.2.1 rfl
    simpa using hs
  · have hv := h.2.2.1 rfl
    simpa using hv

/-- C2: when a pass's resolved option is false, `set_effect` hides the
renderable in that pass's mask and invokes no shader binding for it; and after
`set_effect` no pass is both marked hidden and shader-bound in the call. -/
theorem set_effect_disabled_pass_hidden (e : Effect) (sort : Int) (p : PassId) :
    (e.get_option (pass_option_name p) = false →
      hiddenAfter (set_effect (some e) sort) p = true ∧
      bindsPass (set_effect (some e) sort) p = false) ∧
    ¬(hiddenAfter (set_effect (some e) sort) p = true ∧
      bindsPass (set_effect (some e) sort) p = true) := by
  obtain ⟨id, gb, sh, vx, em, s1, s2, s3, s4⟩ := e
  cases p <;> cases gb <;> cases sh <;> cases vx <;> cases em <;>
    simp [set_effect, Effect.get_option, pass_option_name, hiddenAfter,
      visStateAfter, bindsPass, Op.bindsFor]

/-- Witness for C2: an effect with `render_shadows = false` applied at the
default sort leaves the shadow pass hidden and unbound. -/
theorem set_effect_disabled_pass_hidden_witness :
    hiddenAfter (set_effect (some ⟨1, true, false, true, true, 1, 2, 3, 4⟩) 30)
      PassId.shadows = true ∧
    bindsPass (set_effect (some ⟨1, true, false, true, true, 1, 2, 3, 4⟩) 30)
      PassId.shadows = false :=
  (set_effect_disabled_pass_hidden ⟨1, true, false, true, true, 1, 2, 3, 4⟩ 30
    PassId.shadows).1 rfl

/-- C3: when effect resolution fails, `set_effect` only reports the error: the
trace is the single error operation, so no pass is shader-bound and no
visibility mask is touched. -/
theorem set_effect_load_failure_no_mutation (sort : Int) :
    set_effect none sort = [Op.errorMsg "Could not apply effect"] ∧
    ∀ p : PassId, bindsPass (set_effect none sort) p = false ∧
      visStateAfter (set_effect none sort) p = none := by
  refine ⟨rfl, ?_⟩
  intro p
  cases p <;> simp [set_effect, bindsPass, Op.bindsFor, visStateAfter]

/-! ### Stage registry (`_init_common_stages`, source lines 231-254) -/

/-- The stages registered by `_init_common_stages`. -/
inductive Stage
  | ambient
  | gbuffer
  | final
  | downscale_z
  | combine_velocity
  | upscale
  deriving DecidableEq, Repr

/-- `stage_mgr.add_stage`: appends a stage to the ordered stage list. -/
def add_stage (stages : List Stage) (s : Stage) : List Stage :=
  stages ++ [s]

/-- `PipelineExtensions._init_common_stages` (source lines 231-254): registers
ambient, gbuffer, final, downscale-z and combine-velocity stages in that
order, then the upscale stage when
`abs(1 - settings["pipeline.resolution_scale"]) > 0.05`. The resolution-scale
setting is the `resolution_scale` argument. -/
def init_common_stages (resolution_scale : ℚ) : List Stage :=
  let s1 := add_stage [] Stage.ambient
  let s2 := add_stage s1 Stage.gbuffer
  let s3 := add_stage s2 Stage.final
  let s4 := add_stage s3 Stage.downscale_z
  let s5 := add_stage s4 Stage.combine_velocity
  if |1 - resolution_scale| > 5 / 100 then add_stage s5 Stage.upscale else s5

/-- C4: with resolution scale 1 exactly the five common stages are registered
in order; with scale 1/2 the upscale stage is appended as a sixth; and in
general the upscale stage is appended after the five exactly when the scale
differs from 1 by more than 0.05. -/
theorem init_common_stages_spec :
    init_common_stages 1 =
      [Stage.ambient, Stage.gbuffer, Stage.final, Stage.downscale_z,
       Stage.combine_velocity] ∧
    (init_common_stages 1).length = 5 ∧
    init_common_stages (1 / 2) =
      [Stage.ambient, Stage.gbuffer, Stage.final, Stage.downscale_z,
       Stage.combine_velocity, Stage.upscale] ∧
    (init_common_stages (1 / 2)).length = 6 ∧
    ∀ rs : ℚ,
      init_common_stages rs =
        [Stage.ambient, Stage.gbuffer, Stage.final, Stage.downscale_z,
         Stage.combine_velocity] ++
          (if |1 - rs| > 5 / 100 then [Stage.upscale] else []) := by
  refine ⟨?_, ?_, ?_, ?_, ?_⟩
  · norm_num [init_common_stages, add_stage]
  · norm_num [init_common_stages, add_stage]
  · norm_num [init_common_stages, add_stage, abs_of_pos]
  · norm_num [init_common_stages, add_stage, abs_of_pos]
  · intro rs
    by_cases h : |1 - rs| > 5 / 100 <;>
      simp [init_common_stages, add_stage, h]

/-! ### Scene model and `prepare_scene` (source lines 153-219)

Scalar values coming from the scene (positions, colors, distances, matrix
entries) are modelled as exact rationals. -/

/-- A 3-component vector. -/
structure Vec3 where
  x : ℚ
  y : ℚ
  z : ℚ
  deriving DecidableEq, Repr

/-- A 4-component vector (used for node colors, RGBA). -/
structure Vec4 where
  x : ℚ
  y : ℚ
  z : ℚ
  w : ℚ
  deriving DecidableEq, Repr

/-- `color.xyz`: the RGB part of an RGBA color. -/
def Vec4.xyz (v : Vec4) : Vec3 :=
  ⟨v.x, v.y, v.z⟩

/-- The vector (rotation/scale) part of a node's world transform, row-major. -/
structure Mat3 where
  m00 : ℚ
  m01 : ℚ
  m02 : ℚ
  m10 : ℚ
  m11 : ℚ
  m12 : ℚ
  m20 : ℚ
  m21 : ℚ
  m22 : ℚ
  deriving DecidableEq, Repr

/-- `mat.xform_vec(v)`: applies the vector part of the transform to `v`
(no translation). -/
def Mat3.xform_vec (m : Mat3) (v : Vec3) : Vec3 :=
  ⟨m.m00 * v.x + m.m01 * v.y + m.m02 * v.z,
   m.m10 * v.x + m.m11 * v.y + m.m12 * v.z,
   m.m20 * v.x + m.m21 * v.y + m.m22 * v.z⟩

/-- A full node transform: vector part plus translation (`np.get_mat()`). -/
structure Mat4 where
  linear : Mat3
  translation : Vec3
  deriving DecidableEq, Repr

/-- The identity 3x3 matrix. -/
def mat3_id : Mat3 :=
  ⟨1, 0, 0, 0, 1, 0, 0, 0, 1⟩

/-- The identity node transform. -/
def mat4_id : Mat4 :=
  ⟨mat3_id, ⟨0, 0, 0⟩⟩

/-- The exact rational value of the IEEE-754 double `math.pi`
(`math.pi.as_integer_ratio()` in Python). -/
def math_pi : ℚ :=
  884279719003555 / 281474976710656

/-- The attributes `prepare_scene` reads off a Panda3D light node: world
position (`get_pos` relative to render), `max_distance`, RGBA `color`,
`shadow_caster`, `shadow_buffer_size.x`, `exponent` (spot lights only) and
the vector part of the world matrix (`get_mat` relative to render). -/
structure LightNodeData where
  pos : Vec3
  max_distance : ℚ
  color : Vec4
  shadow_caster : Bool
  shadow_buffer_size_x : ℤ
  exponent : ℚ
  world_mat : Mat3
  deriving DecidableEq, Repr

/-- A scene-graph node as seen by `prepare_scene`: a `+PointLight` match, a
`+Spotlight` match, an `ENVPROBE*` marker (carrying its `get_mat()`), or any
other node. -/
inductive Node
  | point (d : LightNodeData)
  | spot (d : LightNodeData)
  | envprobe (mat : Mat4)
  | other (id : Nat)
  deriving DecidableEq, Repr

/-- A scene is the list of nodes in the subtree passed to `prepare_scene`. -/
abbrev Scene := List Node

/-- Node kind test: `+PointLight` matches. -/
def Node.is_point : Node → Bool
  | Node.point _ => true
  | _ => false

/-- Node kind test: `+Spotlight` matches. -/
def Node.is_spot : Node → Bool
  | Node.spot _ => true
  | _ => false

/-- Node kind test: `ENVPROBE*` marker matches. -/
def Node.is_envprobe : Node → Bool
  | Node.envprobe _ => true
  | _ => false

/-- A node is matched (and consumed) by one of the three `prepare_scene`
loops. -/
def matched_node (n : Node) : Bool :=
  n.is_point || n.is_spot || n.is_envprobe

/-- `scene.find_all_matches("**/+PointLight")`, as the node data in order. -/
def point_light_data (s : Scene) : List LightNodeData :=
  s.filterMap fun n =>
    match n with
    | Node.point d => some d
    | _ => none

/-- `scene.find_all_matches("**/+Spotlight")`, as the node data in order. -/
def spot_light_data (s : Scene) : List LightNodeData :=
  s.filterMap fun n =>
    match n with
    | Node.spot d => some d
    | _ => none

/-- `scene.find_all_matches("**/ENVPROBE*")`, as the marker transforms in
order. -/
def envprobe_mats (s : Scene) : List Mat4 :=
  s.filterMap fun n =>
    match n with
    | Node.envprobe m => some m
    | _ => none

/-- Modelled from the spec: the native `PointLight` (`rpcore.native`, not
under `src/`). Per §3 and §4.4 a point light stores position, radius, lumens,
color, shadow-casting flag and shadow-map resolution verbatim, plus an
optional attached IES profile (named by filename). -/
structure PointLightData where
  pos : Vec3
  radius : ℚ
  lumens : ℚ
  color : Vec3
  casts_shadows : Bool
  shadow_map_resolution : ℤ
  ies_profile : Option String
  deriving DecidableEq, Repr

/-- Modelled from the spec: the native `SpotLight` (`rpcore.native`, not under
`src/`): the point-light fields plus field-of-view and direction (§3, §4.4). -/
structure SpotLightData where
  pos : Vec3
  radius : ℚ
  lumens : ℚ
  color : Vec3
  casts_shadows : Bool
  shadow_map_resolution : ℤ
  fov : ℚ
  direction : Vec3
  ies_profile : Option String
  deriving DecidableEq, Repr

/-- A render-pipeline light registered through `add_light`. -/
inductive RPLight
  | point (d : PointLightData)
  | spot (d : SpotLightData)
  deriving DecidableEq, Repr

/-- The radius of a registered light. -/
def RPLight.radius : RPLight → ℚ
  | RPLight.point d => d.radius
  | RPLight.spot d => d.radius

/-- The lumens of a registered light. -/
def RPLight.lumens : RPLight → ℚ
  | RPLight.point d => d.lumens
  | RPLight.spot d => d.lumens

/-- The IES profile attached to a registered light, if any. -/
def RPLight.ies_profile : RPLight → Option String
  | RPLight.point d => d.ies_profile
  | RPLight.spot d => d.ies_profile

/-- The point-light construction of `prepare_scene` (source lines 179-186):
position, radius from `max_distance`, lumens `100.0 * color.w`, color
`color.xyz`, shadow flag and shadow-map resolution copied; no IES profile is
attached. -/
def point_to_rp (d : LightNodeData) : PointLightData :=
  { pos := d.pos
    radius := d.max_distance
    lumens := 100 * d.color.w
    color := d.color.xyz
    casts_shadows := d.shadow_caster
    shadow_map_resolution := d.shadow_buffer_size_x
    ies_profile := none }

/-- The spot-light construction of `prepare_scene` (source lines 192-201):
the point-light fields plus `fov = exponent / math.pi * 180.0` and
`direction = world_mat.xform_vec(Vec3(0, 0, -1))`; no IES profile is
attached. -/
def spot_to_rp (d : LightNodeData) : SpotLightData :=
  { pos := d.pos
    radius := d.max_distance
    lumens := 100 * d.color.w
    color := d.color.xyz
    casts_shadows := d.shadow_caster
    shadow_map_resolution := d.shadow_buffer_size_x
    fov := d.exponent / math_pi * 180
    direction := d.world_mat.xform_vec ⟨0, 0, -1⟩
    ies_profile := none }

/-- An environment-probe handle: either the inert `_dummy_probe` returned when
the `env_probes` plugin is disabled (source lines 160-163), or a real probe
carrying its transform and border smoothness (the real `EnvironmentProbe` is
plugin code not under `src/`; modelled from the spec §3: a transform plus a
border-smoothness parameter). -/
inductive ProbeHandle
  | dummy
  | real (mat : Mat4) (border_smoothness : ℚ)
  deriving DecidableEq, Repr

/-- `probe.set_mat(mat)`: on the dummy probe every call is absorbed with no
effect; on a real probe the transform is replaced. -/
def ProbeHandle.set_mat : ProbeHandle → Mat4 → ProbeHandle
  | ProbeHandle.dummy, _ => ProbeHandle.dummy
  | ProbeHandle.real _ b, m => ProbeHandle.real m b

/-- `probe.border_smoothness = v`: on the dummy probe the assignment is
absorbed with no effect; on a real probe the parameter is replaced. -/
def ProbeHandle.set_border_smoothness : ProbeHandle → ℚ → ProbeHandle
  | ProbeHandle.dummy, _ => ProbeHandle.dummy
  | ProbeHandle.real m _, v => ProbeHandle.real m v

/-- `PipelineExtensions.add_environment_probe` (source lines 153-168): when
the `env_probes` plugin is disabled, warns and returns the inert dummy probe;
otherwise constructs and registers a fresh probe. Returns the handle together
with the warnings emitted. -/
def add_environment_probe (env_probes_enabled : Bool) :
    ProbeHandle × List String :=
  if env_probes_enabled then
    (ProbeHandle.real mat4_id 0, [])
  else
    (ProbeHandle.dummy,
     ["EnvProbe plugin is not loaded, can not add environment probe"])

/-- The observable result of `prepare_scene`: the returned lights and
envprobes, the warnings emitted, and the IES profiles loaded during the call.
The `lights` list is also, in order, the sequence of `add_light`
registrations. -/
structure PrepareResult where
  lights : List RPLight
  envprobes : List ProbeHandle
  warnings : List String
  ies_profiles_loaded : List String
  deriving DecidableEq, Repr

/-- `PipelineExtensions.prepare_scene` (source lines 170-219): loads the IES
profile `x_arrow_diffuse.ies`, converts and removes every `+PointLight` node,
then every `+Spotlight` node, then every `ENVPROBE*` marker, and returns the
registered lights and probes. The second component is the residual scene. -/
def prepare_scene (env_probes_enabled : Bool) (s : Scene) :
    PrepareResult × Scene :=
  let ies_loaded := ["x_arrow_diffuse.ies"]
  let point_data := point_light_data s
  let s1 := s.filter fun n => !n.is_point
  let spot_data := spot_light_data s1
  let s2 := s1.filter fun n => !n.is_spot
  let probe_results := (envprobe_mats s2).map fun m =>
    let pr := add_environment_probe env_probes_enabled
    ((pr.1.set_mat m).set_border_smoothness (5 / 100), pr.2)
  let s3 := s2.filter fun n => !n.is_envprobe
  ({ lights := point_data.map (fun d => RPLight.point (point_to_rp d)) ++
       spot_data.map fun d => RPLight.spot (spot_to_rp d)
     envprobes := probe_results.map Prod.fst
     warnings := (probe_results.map Prod.snd).flatten
     ies_profiles_loaded := ies_loaded }, s3)

/-- The arguments `_set_default_effect` passes to `set_effect`
(source lines 256-258): the global scene root, `effects/default.yaml`, an
empty option mapping, sort `-10`. -/
structure SetEffectCall where
  target_is_scene_root : Bool
  effect_src : String
  options : List (String × Bool)
  sort : Int
  deriving DecidableEq, Repr

/-- `PipelineExtensions._set_default_effect` (source line 258):
`self.set_effect(Globals.render, "effects/default.yaml", {}, -10)`. -/
def set_default_effect_call : SetEffectCall :=
  { target_is_scene_root := true
    effect_src := "effects/default.yaml"
    options := []
    sort := -10 }

/-! ### Theorems about `prepare_scene` -/

/-- A spot-light node survives the point-light removal pass. -/
lemma spot_mem_filter_not_point {d : LightNodeData} {s : Scene}
    (h : Node.spot d ∈ s) :
    Node.spot d ∈ s.filter fun n => !n.is_point :=
  List.mem_filter.mpr ⟨h, by simp [Node.is_point]⟩

/-- A concrete point-light node matching the spec's example: color
`(1, 1, 1, 0.5)` and max-distance `10`. -/
def c5_node : LightNodeData :=
  { pos := ⟨0, 0, 0⟩
    max_distance := 10
    color := ⟨1, 1, 1, 1 / 2⟩
    shadow_caster := false
    shadow_buffer_size_x := 512
    exponent := 0
    world_mat := mat3_id }

/-- C5: every matched point-light node yields a registered light with the
node's position, radius from max-distance, lumens `100 * alpha`, RGB color,
and copied shadow flag / shadow-map resolution; every matched spot-light node
additionally gets `fov = exponent / pi * 180` and direction
`world_mat * (0, 0, -1)`. -/
theorem prepare_scene_light_fields (enabled : Bool) (s : Scene) :
    (∀ d : LightNodeData, Node.point d ∈ s →
      RPLight.point (point_to_rp d) ∈ (prepare_scene enabled s).1.lights ∧
      (point_to_rp d).pos = d.pos ∧
      (point_to_rp d).radius = d.max_distance ∧
      (point_to_rp d).lumens = 100 * d.color.w ∧
      (point_to_rp d).color = d.color.xyz ∧
      (point_to_rp d).casts_shadows = d.shadow_caster ∧
      (point_to_rp d).shadow_map_resolution = d.shadow_buffer_size_x) ∧
    (∀ d : LightNodeData, Node.spot d ∈ s →
      RPLight.spot (spot_to_rp d) ∈ (prepare_scene enabled s).1.lights ∧
      (spot_to_rp d).pos = d.pos ∧
      (spot_to_rp d).radius = d.max_distance ∧
      (spot_to_rp d).lumens = 100 * d.color.w ∧
      (spot_to_rp d).color = d.color.xyz ∧
      (spot_to_rp d).casts_shadows = d.shadow_caster ∧
      (spot_to_rp d).shadow_map_resolution = d.shadow_buffer_size_x ∧
      (spot_to_rp d).fov = d.exponent / math_pi * 180 ∧
      (spot_to_rp d).direction = d.world_mat.xform_vec ⟨0, 0, -1⟩) := by
  constructor
  · intro d hd
    refine ⟨?_, rfl, rfl, rfl, rfl, rfl, rfl⟩
    simp only [prepare_scene]
    apply List.mem_append_left
    exact List.mem_map_of_mem _
      (List.mem_filterMap.mpr ⟨Node.point d, hd, rfl⟩)
  · intro d hd
    refine ⟨?_, rfl, rfl, rfl, rfl, rfl, rfl, rfl, rfl⟩
    simp only [prepare_scene]
    apply List.mem_append_right
    exact List.mem_map_of_mem _
      (List.mem_filterMap.mpr
        ⟨Node.spot d, spot_mem_filter_not_point hd, rfl⟩)

/-- Witness for C5 at the spec's example node (color alpha `1/2`,
max-distance `10`): the light is registered with lumens `100 * (1/2) = 50`
and radius `10`. -/
theorem prepare_scene_light_fields_witness :
    RPLight.point (point_to_rp c5_node) ∈
      (prepare_scene true [Node.point c5_node]).1.lights ∧
    (point_to_rp c5_node).lumens = 100 * (1 / 2 : ℚ) ∧
    100 * (1 / 2 : ℚ) = 50 ∧
    (point_to_rp c5_node).radius = 10 := by
  have h := (prepare_scene_light_fields true [Node.point c5_node]).1 c5_node
    (by simp)
  exact ⟨h.1, h.2.2.2.1, by norm_num, h.2.2.1⟩

/-- The residual scene of `prepare_scene` is the input with every matched
node removed. -/
lemma prepare_scene_residual (enabled : Bool) (s : Scene) :
    (prepare_scene enabled s).2 = s.filter fun n => !matched_node n := by
  simp only [prepare_scene]
  rw [List.filter_filter, List.filter_filter]
  apply List.filter_congr
  intro n _
  cases n <;> rfl

/-- Every node of the residual scene is unmatched. -/
lemma residual_unmatched (enabled : Bool) (s : Scene) :
    ∀ n ∈ (prepare_scene enabled s).2, matched_node n = false := by
  intro n hn
  rw [prepare_scene_residual] at hn
  simpa using (List.mem_filter.mp hn).2

/-- C6: `prepare_scene` removes every matched node from the scene, and a
second call on the residual scene matches nothing: it returns empty lights
and envprobes and leaves the scene unchanged. -/
theorem prepare_scene_consumes_matched (enabled : Bool) (s : Scene) :
    (prepare_scene enabled s).2 = s.filter (fun n => !matched_node n) ∧
    (∀ n ∈ (prepare_scene enabled s).2, matched_node n = false) ∧
    (prepare_scene enabled ((prepare_scene enabled s).2)).1.lights = [] ∧
    (prepare_scene enabled ((prepare_scene enabled s).2)).1.envprobes = [] ∧
    (prepare_scene enabled ((prepare_scene enabled s).2)).2 =
      (prepare_scene enabled s).2 := by
  refine ⟨prepare_scene_residual enabled s, residual_unmatched enabled s,
    ?_, ?_, ?_⟩
  · have hmem := residual_unmatched enabled s
    simp only [prepare_scene, List.append_eq_nil, List.map_eq_nil_iff]
    constructor
    · exact List.filterMap_eq_nil_iff.mpr fun n hn => by
        have := hmem n hn
        cases n <;> simp_all [matched_node, Node.is_point]
    · exact List.filterMap_eq_nil_iff.mpr fun n hn => by
        have := hmem n (List.mem_of_mem_filter hn)
        cases n <;> simp_all [matched_node, Node.is_spot]
  · have hmem := residual_unmatched enabled s
    simp only [prepare_scene, List.map_eq_nil_iff]
    exact List.filterMap_eq_nil_iff.mpr fun n hn => by
      have := hmem n (List.mem_of_mem_filter (List.mem_of_mem_filter hn))
      cases n <;> simp_all [matched_node, Node.is_envprobe]
  · have hmem := residual_unmatched enabled s
    conv_lhs => rw [prepare_scene_residual]
    rw [List.filter_eq_self.mpr]
    intro n hn
    have := hmem n hn
    cases n <;> simp_all [matched_node]

/-- Witness for C6 at a concrete scene: the surviving node is unmatched and
the second call registers no lights. -/
theorem prepare_scene_consumes_matched_witness :
    matched_node (Node.other 3) = false ∧
    (prepare_scene true
      ((prepare_scene true [Node.point c5_node, Node.other 3]).2)).1.lights =
      [] := by
  have h := prepare_scene_consumes_matched true [Node.point c5_node, Node.other 3]
  exact ⟨h.2.1 (Node.other 3) (by decide), h.2.2.1⟩

/-- The light-removal passes do not touch `ENVPROBE*` markers: the markers
found by the third loop are exactly the markers of the input scene. -/
lemma envprobe_mats_after_light_removal (s : Scene) :
    envprobe_mats ((s.filter fun n => !n.is_point).filter fun n => !n.is_spot) =
      envprobe_mats s := by
  induction s with
  | nil => rfl
  | cons n t ih =>
    cases n <;>
      simp [envprobe_mats, List.filter_cons, Node.is_point, Node.is_spot,
        List.filterMap_cons] <;>
      simpa [envprobe_mats] using ih

/-- Flattening one singleton list per element keeps the element count. -/
lemma flatten_map_singleton_length {α β : Type} (l : List α) (msg : β) :
    ((l.map fun _ => [msg]).flatten).length = l.length := by
  induction l with
  | nil => rfl
  | cons a t ih => simp [ih]

/-- C7: with the `env_probes` plugin disabled, `prepare_scene` still returns
one probe entry per `ENVPROBE*` marker — each the inert dummy probe — emits
one warning per marker, and every returned probe absorbs `set_mat` calls and
`border_smoothness` assignments with no effect. -/
theorem prepare_scene_disabled_probe_inert (s : Scene) :
    (prepare_scene false s).1.envprobes =
      (envprobe_mats s).map (fun _ => ProbeHandle.dummy) ∧
    (prepare_scene false s).1.warnings.length = (envprobe_mats s).length ∧
    ∀ p ∈ (prepare_scene false s).1.envprobes, ∀ (m : Mat4) (v : ℚ),
      ProbeHandle.set_mat p m = p ∧ ProbeHandle.set_border_smoothness p v = p := by
  refine ⟨?_, ?_, ?_⟩
  · simp only [prepare_scene, List.map_map]
    rw [envprobe_mats_after_light_removal]
    apply List.map_congr_left
    intro m _
    rfl
  · simp only [prepare_scene, List.map_map]
    rw [envprobe_mats_after_light_removal]
    have h :
        ((envprobe_mats s).map
          ((fun pr : ProbeHandle × List String => pr.2) ∘ fun m =>
            ((((add_environment_probe false).1.set_mat m).set_border_smoothness
                (5 / 100)), (add_environment_probe false).2))) =
          (envprobe_mats s).map fun _ =>
            ["EnvProbe plugin is not loaded, can not add environment probe"] := by
      apply List.map_congr_left
      intro m _
      rfl
    rw [h, flatten_map_singleton_length]
  · intro p hp m v
    simp only [prepare_scene, List.map_map] at hp
    rcases List.mem_map.mp hp with ⟨m0, _, rfl⟩
    exact ⟨rfl, rfl⟩

/-- Witness for C7 at a scene holding one `ENVPROBE*` marker: the returned
dummy probe absorbs a `set_mat` call and a `border_smoothness` assignment. -/
theorem prepare_scene_disabled_probe_inert_witness :
    ProbeHandle.set_mat ProbeHandle.dummy mat4_id = ProbeHandle.dummy ∧
    ProbeHandle.set_border_smoothness ProbeHandle.dummy 0 = ProbeHandle.dummy :=
  (prepare_scene_disabled_probe_inert [Node.envprobe mat4_id]).2.2
    ProbeHandle.dummy
    (by
      simp [prepare_scene, envprobe_mats]
      exact ⟨mat4_id, ⟨Node.envprobe mat4_id, ⟨rfl, rfl, rfl⟩, rfl⟩, rfl⟩)
    mat4_id 0

/-- Every matched light node of the scene has positive max-distance and
nonnegative color alpha. -/
def scene_light_nodes_ok (s : Scene) : Bool :=
  s.all fun n =>
    match n with
    | Node.point d => decide (0 < d.max_distance) && decide (0 ≤ d.color.w)
    | Node.spot d => decide (0 < d.max_distance) && decide (0 ≤ d.color.w)
    | _ => true

/-- A point-light node with `max_distance = 0`: `prepare_scene` registers a
light of radius `0` from it. -/
def c8_node : LightNodeData :=
  { pos := ⟨0, 0, 0⟩
    max_distance := 0
    color := ⟨1, 1, 1, 1⟩
    shadow_caster := false
    shadow_buffer_size_x := 512
    exponent := 0
    world_mat := mat3_id }

/-- Counterexample to C8 as stated: on a scene containing a point-light node
with max-distance `0`, `prepare_scene` registers a light whose radius is not
positive. -/
theorem prepare_scene_light_invariant_cex :
    ∃ l ∈ (prepare_scene true [Node.point c8_node]).1.lights,
      ¬(0 < RPLight.radius l ∧ 0 ≤ RPLight.lumens l) := by
  refine ⟨RPLight.point (point_to_rp c8_node), ?_, ?_⟩
  · exact ((prepare_scene_light_fields true [Node.point c8_node]).1 c8_node
      (by simp)).1
  · intro hcon
    have : (0 : ℚ) < 0 := by
      simpa [RPLight.radius, point_to_rp, c8_node] using hcon.1
    exact absurd this (by norm_num)

/-- C8 amended: whenever every matched light node of the scene has positive
max-distance and nonnegative color alpha, every light registered by
`prepare_scene` has radius > 0 and lumens ≥ 0. -/
theorem prepare_scene_light_invariant (enabled : Bool) (s : Scene)
    (h : scene_light_nodes_ok s = true) :
    ∀ l ∈ (prepare_scene enabled s).1.lights,
      0 < RPLight.radius l ∧ 0 ≤ RPLight.lumens l := by
  intro l hl
  have hall := List.all_eq_true.mp h
  simp only [prepare_scene] at hl
  rcases List.mem_append.mp hl with hp | hs
  · rcases List.mem_map.mp hp with ⟨d, hd, rfl⟩
    rcases List.mem_filterMap.mp hd with ⟨n, hn, hfn⟩
    cases n with
    | point d2 =>
      have hd2 : d2 = d := by simpa using hfn
      subst hd2
      have hok := hall _ hn
      simp only [Bool.and_eq_true, decide_eq_true_eq] at hok
      refine ⟨hok.1, ?_⟩
      simpa [RPLight.lumens, point_to_rp] using
        mul_nonneg (by norm_num : (0 : ℚ) ≤ 100) hok.2
    | spot d2 => simp at hfn
    | envprobe m => simp at hfn
    | other i => simp at hfn
  · rcases List.mem_map.mp hs with ⟨d, hd, rfl⟩
    rcases List.mem_filterMap.mp hd with ⟨n, hn, hfn⟩
    have hn2 := List.mem_of_mem_filter hn
    cases n with
    | spot d2 =>
      have hd2 : d2 = d := by simpa using hfn
      subst hd2
      have hok := hall _ hn2
      simp only [Bool.and_eq_true, decide_eq_true_eq] at hok
      refine ⟨hok.1, ?_⟩
      simpa [RPLight.lumens, spot_to_rp] using
        mul_nonneg (by norm_num : (0 : ℚ) ≤ 100) hok.2
    | point d2 => simp at hfn
    | envprobe m => simp at hfn
    | other i => simp at hfn

/-- A well-formed point-light node: max-distance `10`, color alpha `1`. -/
def c8_ok_node : LightNodeData :=
  { pos := ⟨0, 0, 0⟩
    max_distance := 10
    color := ⟨1, 1, 1, 1⟩
    shadow_caster := true
    shadow_buffer_size_x := 256
    exponent := 0
    world_mat := mat3_id }

/-- Witness for the amended C8 at a concrete well-formed scene. -/
theorem prepare_scene_light_invariant_witness :
    scene_light_nodes_ok [Node.point c8_ok_node] = true ∧
    (0 < RPLight.radius (RPLight.point (point_to_rp c8_ok_node)) ∧
      0 ≤ RPLight.lumens (RPLight.point (point_to_rp c8_ok_node))) :=
  ⟨by decide,
   prepare_scene_light_invariant true [Node.point c8_ok_node] (by decide)
     (RPLight.point (point_to_rp c8_ok_node))
     (by simp [prepare_scene, point_light_data, spot_light_data])⟩

/-- C9: every `prepare_scene` call loads exactly the IES profile
`x_arrow_diffuse.ies`, and no registered light has an IES profile attached. -/
theorem prepare_scene_ies_once_unattached (enabled : Bool) (s : Scene) :
    (prepare_scene enabled s).1.ies_profiles_loaded = ["x_arrow_diffuse.ies"] ∧
    ∀ l ∈ (prepare_scene enabled s).1.lights, RPLight.ies_profile l = none := by
  refine ⟨rfl, ?_⟩
  intro l hl
  simp only [prepare_scene] at hl
  rcases List.mem_append.mp hl with hp | hs
  · rcases List.mem_map.mp hp with ⟨d, _, rfl⟩
    rfl
  · rcases List.mem_map.mp hs with ⟨d, _, rfl⟩
    rfl

/-- Witness for C9 at a concrete one-light scene. -/
theorem prepare_scene_ies_once_unattached_witness :
    (prepare_scene true [Node.point c5_node]).1.ies_profiles_loaded =
      ["x_arrow_diffuse.ies"] ∧
    RPLight.ies_profile (RPLight.point (point_to_rp c5_node)) = none := by
  have h := prepare_scene_ies_once_unattached true [Node.point c5_node]
  exact ⟨h.1, h.2 (RPLight.point (point_to_rp c5_node))
    (by simp [prepare_scene, point_light_data, spot_light_data])⟩

/-- C10: the default fallback effect call targets the global scene root with
`effects/default.yaml`, an empty option mapping and sort `-10`, which is
strictly below the default sort `30` of `set_effect`. -/
theorem default_effect_low_sort :
    set_default_effect_call.sort = -10 ∧
    set_default_effect_call.effect_src = "effects/default.yaml" ∧
    set_default_effect_call.options = [] ∧
    set_default_effect_call.target_is_scene_root = true ∧
    set_effect_default_sort = 30 ∧
    set_default_effect_call.sort < set_effect_default_sort := by
  refine ⟨rfl, rfl, rfl, rfl, rfl, ?_⟩
  decide

end RenderPipeline
